import Mathlib

/-!
Shallow embedding of the fan-out engine of the `music` app
(`music/models/playlist_interaction.py`, `music/models/playlist.py`,
`music/models/playlist_types.py`, `music/services/playlist.py`),
together with theorems settling the specification claims about it.

Conventions of the embedding:
* Django model instances compare and hash by primary key, so wherever the
  source compares or deduplicates model instances we compare their `id`.
* Machine time is an `Int` timestamp; `timezone.now()` becomes an explicit
  `now : Int` argument.
* Database querysets become explicit `List` arguments; a function that the
  source lets raise becomes `Except String`.
* The Python attribute `local` is a Lean keyword and is embedded as
  `isLocal`.
-/

namespace Takahe

/-- An actor (`users.models.identity.Identity`), restricted to the fields the
fan-out engine reads: primary key, locality flag, optional shared inbox URI,
actor URI, optional followers collection URI and the URI domain used for
hashtag links. -/
structure Identity where
  id : Nat
  isLocal : Bool
  shared_inbox_uri : Option String
  actor_uri : String
  followers_uri : Option String := none
  uri_domain : String := ""
  handle : String := ""
deriving DecidableEq, Repr

/-- A follow edge; `source` follows the identity with primary key
`target_id`.  `boosts` mirrors the flag consulted by
`get_targets` for boost interactions, `active` mirrors membership in the
`.active()` queryset. -/
structure Follow where
  source : Identity
  target_id : Nat
  boosts : Bool
  active : Bool
deriving DecidableEq, Repr

/-- A block edge out of the acting identity.  Only active non-mute blocks
remove fan-out targets. -/
structure Block where
  target : Identity
  mute : Bool
  active : Bool
deriving DecidableEq, Repr

/-- Embeds `PlaylistInteraction.Types` (`like`, `boost`, `vote`, `pin`). -/
inductive InteractionType where
| like
| boost
| vote
| pin
deriving DecidableEq, Repr

/-- Embeds `Playlist.Visibilities`, restricted to the cases read by the audience
logic of `Playlist.to_ap` and `PlaylistService.pin_as`. -/
inductive Visibility where
| publicVis
| unlisted
| followers
| mentioned
deriving DecidableEq, Repr

/-- One poll option (`playlist_types.QuestionOption`): display name and the
stored vote tally. -/
structure QuestionOption where
  name : String
  votes : Nat
deriving DecidableEq, Repr

/-- A poll payload (`playlist_types.QuestionData`): mode (`oneOf` or
`anyOf`), options, the voter counter and the optional end time. -/
structure QuestionData where
  mode : Option String
  options : List QuestionOption
  voter_count : Nat
  end_time : Option Int
deriving DecidableEq, Repr

/-- The tagged union `PlaylistDataType` of `playlist_types.py`; only the
`Question` variant carries data the claims read. -/
inductive PlaylistDataType where
| question (q : QuestionData)
| article
deriving DecidableEq, Repr

/-- A playlist (`music.models.playlist.Playlist`), restricted to the fields
read by the fan-out engine and the serializers.  `isLocal` embeds the Python
attribute `local`; `ap_type` embeds the `type` column used as the AP object
type; `mentions` holds the mentioned identities; `emojis` and `attachments`
hold the payload of the external tag and attachment serializers, which are
not part of this repository, as opaque strings. -/
structure Playlist where
  id : Nat
  author : Identity
  isLocal : Bool
  object_uri : String
  ap_type : String := "MusicPlaylist"
  name : String := ""
  published : Int := 0
  content : String := ""
  sensitive : Bool := false
  url : String := ""
  description : Option String := none
  in_reply_to : Option String := none
  edited : Option Int := none
  visibility : Visibility := Visibility.publicVis
  mentions : List Identity := []
  hashtags : List String := []
  emojis : List String := []
  attachments : List String := []
  type_data : Option PlaylistDataType := none
deriving DecidableEq, Repr

/-- The states of `PlaylistInteractionStates`. -/
inductive InteractionState where
| new
| fanned_out
| undone
| undone_fanned_out
deriving DecidableEq, Repr

/-- Embeds `PlaylistInteractionStates.group_active()`. -/
def group_active : List InteractionState :=
  [InteractionState.new, InteractionState.fanned_out]

/-- A `PlaylistInteraction` row with its related `identity` and `playlist`
instances resolved, as the handlers see it. -/
structure PlaylistInteraction where
  id : Nat
  state : InteractionState := InteractionState.new
  object_uri : Option String := none
  type : InteractionType
  identity : Identity
  playlist : Playlist
  value : Option String := none
  published : Int := 0
deriving DecidableEq, Repr

/-- Embeds `FanOut.Types`, restricted to the two values the interaction handlers
create. -/
inductive FanOutType where
| interaction
| undo_interaction
deriving DecidableEq, Repr

/-- A `FanOut` row as created by the interaction handlers: its type, the
primary keys of the recipient identity, the subject playlist and the subject
interaction. -/
structure FanOut where
  type : FanOutType
  identity_id : Nat
  subject_playlist : Nat
  subject_playlist_interaction : Nat
deriving DecidableEq, Repr

/-- Builds the `FanOut` row the handlers create for recipient `iid`. -/
def mkFanOut (ft : FanOutType) (iid : Nat) (i : PlaylistInteraction) : FanOut :=
  { type := ft
    identity_id := iid
    subject_playlist := i.playlist.id
    subject_playlist_interaction := i.id }

/-- Python set insertion over identities (Django instances hash and compare
by primary key): the element is appended unless an element with the same
`id` is already present. -/
def insertTarget (acc : List Identity) (t : Identity) : List Identity :=
  if acc.any (fun u => u.id == t.id) then acc else acc ++ [t]

/-- The candidate set built by the first half of
`PlaylistInteraction.get_targets`: the playlist author, then the sources of
the acting identity follower edges (restricted to `boosts = True` follows
for boost interactions), as a Python set keyed by primary key. -/
def targetSeeds (i : PlaylistInteraction) (follows : List Follow) : List Identity :=
  ((follows.filter (fun f =>
      f.active && f.target_id == i.identity.id
        && (!(i.type == InteractionType.boost) || f.boosts))).map Follow.source).foldl
    insertTarget [i.playlist.author]

/-- Embeds `targets.remove(block.target)` for every active non-mute outbound
block. -/
def removeBlocks (targets : List Identity) (blocks : List Block) : List Identity :=
  blocks.foldl
    (fun acc b =>
      if b.active && !b.mute then acc.filter (fun t => !(t.id == b.target.id)) else acc)
    targets

/-- The post-block candidate list fed into the deduplication loop of
`get_targets`. -/
def candidates (i : PlaylistInteraction) (follows : List Follow) (blocks : List Block) :
    List Identity :=
  removeBlocks (targetSeeds i follows) blocks

/-- Accumulator of the deduplication loop of `get_targets`: the
`deduped_targets` set (as a list in insertion order) and the
`shared_inboxes` set. -/
structure DedupState where
  deduped : List Identity
  inboxes : List String
deriving Repr

/-- One iteration of the deduplication loop of `get_targets`: local targets
are always kept; when the acting identity is local, remote targets without a
shared inbox are kept and remote targets with a shared inbox are kept only
for a shared inbox not seen before. -/
def dedupStep (actorLocal : Bool) (s : DedupState) (t : Identity) : DedupState :=
  if t.isLocal then
    { s with deduped := s.deduped ++ [t] }
  else if actorLocal then
    match t.shared_inbox_uri with
    | none => { s with deduped := s.deduped ++ [t] }
    | some u =>
        if u ∈ s.inboxes then s
        else { deduped := s.deduped ++ [t], inboxes := u :: s.inboxes }
  else
    s

/-- Embeds `PlaylistInteraction.get_targets`: the deduplicated target list.  The
iteration order over the Python set is fixed here as insertion order; every
claim proved about the result is order independent. -/
def get_targets (i : PlaylistInteraction) (follows : List Follow) (blocks : List Block) :
    List Identity :=
  ((candidates i follows blocks).foldl (dedupStep i.identity.isLocal)
    ⟨[], []⟩).deduped

/-- Embeds `PlaylistInteractionStates.handle_new`: the list of `FanOut` rows
created for a new interaction and the state returned, or the
`ValueError` message raised. -/
def handle_new (i : PlaylistInteraction) (follows : List Follow) (blocks : List Block) :
    Except String (List FanOut × InteractionState) := do
  let main ←
    if i.type = InteractionType.boost ∨ i.type = InteractionType.pin then
      Except.ok ((get_targets i follows blocks).map
        (fun t => mkFanOut FanOutType.interaction t.id i))
    else if i.type = InteractionType.like then
      Except.ok
        (if i.identity.isLocal || i.playlist.isLocal then
          [mkFanOut FanOutType.interaction i.playlist.author.id i]
        else [])
    else if i.type = InteractionType.vote then
      Except.ok
        (if i.identity.isLocal && !i.playlist.isLocal then
          [mkFanOut FanOutType.interaction i.playlist.author.id i]
        else [])
    else
      Except.error "Cannot fan out unknown type"
  let selfRows :=
    if i.type = InteractionType.boost ∧ i.identity.isLocal then
      [mkFanOut FanOutType.interaction i.identity.id i]
    else []
  Except.ok (main ++ selfRows, InteractionState.fanned_out)

/-- Embeds `PlaylistInteractionStates.handle_undone`: the `FanOut` rows created to
undo an interaction and the state returned, or the `ValueError` message
raised.  For boost and pin the source walks `identity.inbound_follows`
directly (without `.active()`), keeping a row when the follow source or the
follow target (the acting identity) is local. -/
def handle_undone (i : PlaylistInteraction) (follows : List Follow) :
    Except String (List FanOut × InteractionState) := do
  let main ←
    if i.type = InteractionType.boost ∨ i.type = InteractionType.pin then
      Except.ok ((follows.filter (fun f => f.target_id == i.identity.id)).filterMap
        (fun f =>
          if f.source.isLocal || i.identity.isLocal then
            some (mkFanOut FanOutType.undo_interaction f.source.id i)
          else none))
    else if i.type = InteractionType.like then
      Except.ok [mkFanOut FanOutType.undo_interaction i.playlist.author.id i]
    else
      Except.error "Cannot fan out unknown type"
  let selfRows :=
    if i.type = InteractionType.boost ∧ i.identity.isLocal then
      [mkFanOut FanOutType.undo_interaction i.identity.id i]
    else []
  Except.ok (main ++ selfRows, InteractionState.undone_fanned_out)

/-- Invariant of the deduplication loop: every remote member of `deduped`
with a shared inbox has that inbox recorded in `inboxes`, and no two
distinct remote members of `deduped` share a recorded inbox. -/
def InboxInv (s : DedupState) : Prop :=
  (∀ t ∈ s.deduped, t.isLocal = false → ∀ u, t.shared_inbox_uri = some u → u ∈ s.inboxes)
  ∧ (∀ t1 ∈ s.deduped, ∀ t2 ∈ s.deduped, t1.isLocal = false → t2.isLocal = false →
      ∀ u, t1.shared_inbox_uri = some u → t2.shared_inbox_uri = some u → t1 = t2)

/-- A local remote-following identity used to instantiate the C2 theorem. -/
def c2actor : Identity :=
  { id := 6, isLocal := true, shared_inbox_uri := none,
    actor_uri := "https://here.example/u/c2" }

/-- A remote follower with a shared inbox, used in the C2 instance. -/
def c2remote1 : Identity :=
  { id := 7, isLocal := false, shared_inbox_uri := some "https://there.example/inbox",
    actor_uri := "https://there.example/u/r1" }

/-- A second remote follower with the same shared inbox. -/
def c2remote2 : Identity :=
  { id := 8, isLocal := false, shared_inbox_uri := some "https://there.example/inbox",
    actor_uri := "https://there.example/u/r2" }

/-- A remote follower without a shared inbox. -/
def c2remote3 : Identity :=
  { id := 9, isLocal := false, shared_inbox_uri := none,
    actor_uri := "https://there.example/u/r3" }

/-- The concrete interaction used to instantiate the C2 theorem: a like by
`c2actor` on a playlist authored by a local identity, with three remote
followers. -/
def c2like : PlaylistInteraction :=
  { id := 60
    type := InteractionType.like
    identity := c2actor
    playlist := { id := 61
                  author := { id := 3, isLocal := true, shared_inbox_uri := none,
                              actor_uri := "https://here.example/u/auth" }
                  isLocal := true
                  object_uri := "https://here.example/p/61" } }

/-- Follower edges for the C2 instance. -/
def c2follows : List Follow :=
  [ { source := c2remote1, target_id := 6, boosts := true, active := true },
    { source := c2remote2, target_id := 6, boosts := true, active := true },
    { source := c2remote3, target_id := 6, boosts := true, active := true } ]

/-- Concrete like interaction used to instantiate the C1 theorem: a local
liker of a remote playlist. -/
def c1like : PlaylistInteraction :=
  { id := 10
    type := InteractionType.like
    identity := { id := 1, isLocal := true, shared_inbox_uri := none,
                  actor_uri := "https://here.example/u/a" }
    playlist := { id := 20
                  author := { id := 2, isLocal := false, shared_inbox_uri := none,
                              actor_uri := "https://there.example/u/b" }
                  isLocal := false
                  object_uri := "https://there.example/p/20" } }

/-- Concrete boost interaction used for the C3 counterexample and the C3
witness: a local actor boosting somebody else playlist, with no
followers. -/
def c3boost : PlaylistInteraction :=
  { id := 30
    type := InteractionType.boost
    identity := { id := 11, isLocal := true, shared_inbox_uri := none,
                  actor_uri := "https://here.example/u/c3" }
    playlist := { id := 31
                  author := { id := 12, isLocal := true, shared_inbox_uri := none,
                              actor_uri := "https://here.example/u/c3auth" }
                  isLocal := true
                  object_uri := "https://here.example/p/31" } }

/-- Concrete vote interaction used to instantiate the C4 theorem. -/
def c4vote : PlaylistInteraction :=
  { id := 40
    type := InteractionType.vote
    identity := { id := 4, isLocal := true, shared_inbox_uri := none,
                  actor_uri := "https://here.example/u/v" }
    playlist := { id := 41
                  author := { id := 5, isLocal := false, shared_inbox_uri := none,
                              actor_uri := "https://there.example/u/w" }
                  isLocal := false
                  object_uri := "https://there.example/p/41" }
    value := some "A" }

/-- Modelled from the spec: `core.ld.format_ld_date` (not part of this
repository) serializes a timestamp as an ISO-8601 string; the model only
needs it to be a function of the timestamp. -/
def format_ld_date (t : Int) : String := "ts:" ++ toString t

/-- Iteration over `set(choices)` for a list of ints: first-occurrence
deduplication. -/
def dedupNat (l : List Nat) : List Nat :=
  l.foldl (fun acc c => if c ∈ acc then acc else acc ++ [c]) []

/-- The truthiness test `question.end_time and timezone.now() >
question.end_time` of `create_votes`. -/
def pollEnded (q : QuestionData) (now : Int) : Bool :=
  match q.end_time with
  | some e => decide (now > e)
  | none => false

/-- The queryset `playlist.interactions.filter(identity=identity,
type=vote)` against the interaction table. -/
def votesBy (db : List PlaylistInteraction) (playlist : Playlist) (identity : Identity) :
    List PlaylistInteraction :=
  db.filter (fun x => x.playlist.id == playlist.id && x.identity.id == identity.id
    && x.type == InteractionType.vote)

/-- Embeds `question.options[choice].votes += 1`. -/
def bumpOption (opts : List QuestionOption) (idx : Nat) : List QuestionOption :=
  match opts.get? idx with
  | some o => opts.set idx { o with votes := o.votes + 1 }
  | none => opts

/-- Embeds `PlaylistInteraction.create_votes`: validates expiry then vote
uniqueness, then atomically creates one vote row per distinct choice
(indexing into the poll options, an out-of-range choice aborts the
transaction), bumping the stored tallies only for remote playlists.
Returns the created rows and the updated question payload, or the
`ValueError` message raised; on an error nothing is created. -/
def create_votes (now : Int) (db : List PlaylistInteraction) (playlist : Playlist)
    (identity : Identity) (choices : List Nat) (baseId : Nat) :
    Except String (List PlaylistInteraction × QuestionData) :=
  match playlist.type_data with
  | some (PlaylistDataType.question question) =>
      if pollEnded question now then
        Except.error "Validation failed: The poll has already ended"
      else if !(votesBy db playlist identity).isEmpty then
        Except.error "Validation failed: You have already voted on this poll"
      else do
        let distinct := dedupNat choices
        let rows ← distinct.mapM (fun choice =>
          match question.options.get? choice with
          | some opt =>
              let voteId := baseId + choice
              Except.ok
                { id := voteId
                  state := InteractionState.new
                  object_uri := some (identity.actor_uri ++ "#votes/" ++ toString voteId)
                  type := InteractionType.vote
                  identity := identity
                  playlist := playlist
                  value := some opt.name
                  published := now }
          | none => Except.error "IndexError: list index out of range")
        let question2 :=
          if playlist.isLocal then question
          else
            { question with
              options := distinct.foldl bumpOption question.options
              voter_count := question.voter_count + 1 }
        Except.ok (rows, question2)
  | _ => Except.error "AttributeError: playlist type data is not a question"

/-- The poll summary dictionary built by `QuestionData.to_mastodon_json`. -/
structure MastodonPoll where
  id : Nat
  expires_at : Option String
  expired : Bool
  multiple : Bool
  votes_count : Nat
  voters_count : Nat
  voted : Bool
  own_votes : List Nat
  options : List (String × Nat)
deriving DecidableEq, Repr

/-- The `option_map` of `to_mastodon_json`: name to enumeration index, a
later option with the same name overwriting an earlier one. -/
def optionIndexMap (opts : List QuestionOption) (name : String) : Option Nat :=
  opts.enum.foldl (fun acc p => if p.2.name = name then some p.1 else acc) none

/-- Embeds `QuestionData.to_mastodon_json`: the consumer-facing poll summary.
`expired` uses `now ≥ end_time`; `voted` is true when the requesting
identity is the playlist author or has at least one vote row. -/
def QuestionData.to_mastodon_json (q : QuestionData) (now : Int) (playlist : Playlist)
    (db : List PlaylistInteraction) (identity : Option Identity) : MastodonPoll :=
  let base : MastodonPoll :=
    { id := playlist.id
      expires_at := q.end_time.map format_ld_date
      expired := match q.end_time with
        | some e => decide (now ≥ e)
        | none => false
      multiple := q.mode == some "anyOf"
      votes_count := (q.options.map QuestionOption.votes).sum
      voters_count := q.voter_count
      voted := false
      own_votes := []
      options := q.options.map (fun o => (o.name, o.votes)) }
  match identity with
  | none => base
  | some ident =>
      let votes := votesBy db playlist ident
      { base with
        voted := playlist.author.id == ident.id || !votes.isEmpty
        own_votes := votes.filterMap (fun v => v.value.bind (optionIndexMap q.options)) }

/-- Identity casting the duplicate vote in the C5 instance. -/
def c5voter : Identity :=
  { id := 13, isLocal := true, shared_inbox_uri := none,
    actor_uri := "https://here.example/u/c5" }

/-- The poll playlist of the C5 instance: a live single-choice poll. -/
def c5playlist : Playlist :=
  { id := 50
    author := { id := 14, isLocal := true, shared_inbox_uri := none,
                actor_uri := "https://here.example/u/c5auth" }
    isLocal := true
    object_uri := "https://here.example/p/50"
    type_data := some (PlaylistDataType.question
      { mode := some "oneOf"
        options := [{ name := "A", votes := 0 }, { name := "B", votes := 0 }]
        voter_count := 0
        end_time := some 100 }) }

/-- The existing vote row of the C5 instance. -/
def c5priorVote : PlaylistInteraction :=
  { id := 51
    type := InteractionType.vote
    identity := c5voter
    playlist := c5playlist
    value := some "A" }

/-- A fresh voter for the C9 instance. -/
def c9voter : Identity :=
  { id := 15, isLocal := true, shared_inbox_uri := none,
    actor_uri := "https://here.example/u/c9" }

/-- The poll playlist of the C9 instance, ending exactly at time 100. -/
def c9playlist : Playlist :=
  { id := 90
    author := { id := 16, isLocal := true, shared_inbox_uri := none,
                actor_uri := "https://here.example/u/c9auth" }
    isLocal := true
    object_uri := "https://here.example/p/90"
    type_data := some (PlaylistDataType.question
      { mode := some "oneOf"
        options := [{ name := "A", votes := 0 }, { name := "B", votes := 0 }]
        voter_count := 0
        end_time := some 100 }) }

/-- The question payload of `c9playlist`. -/
def c9question : QuestionData :=
  { mode := some "oneOf"
    options := [{ name := "A", votes := 0 }, { name := "B", votes := 0 }]
    voter_count := 0
    end_time := some 100 }

/-- The non-author identity of the C10 instance. -/
def c10other : Identity :=
  { id := 17, isLocal := true, shared_inbox_uri := none,
    actor_uri := "https://here.example/u/c10" }

/-- The poll playlist of the C10 instance. -/
def c10playlist : Playlist :=
  { id := 92
    author := { id := 18, isLocal := true, shared_inbox_uri := none,
                actor_uri := "https://here.example/u/c10auth" }
    isLocal := true
    object_uri := "https://here.example/p/92" }

/-- The question payload of the C10 instance. -/
def c10question : QuestionData :=
  { mode := some "oneOf"
    options := [{ name := "A", votes := 0 }, { name := "B", votes := 0 }]
    voter_count := 0
    end_time := none }

/-- ASCII lowercasing of one character, written with structural arithmetic
so that concrete strings evaluate. -/
def lowerChar (c : Char) : Char :=
  if 65 ≤ c.toNat ∧ c.toNat ≤ 90 then Char.ofNat (c.toNat + 32) else c

/-- The Python `str.lower()` applied to the ASCII wire `type` strings of
activity documents. -/
def lowerStr (s : String) : String :=
  String.mk (s.data.map lowerChar)

/-- An embedded activity object as read by `by_ap`: its wire `type`, the
optional `name` (vote choice text), the optional `inReplyTo` URI and the
optional own `id` URI. -/
structure ApObject where
  type : String
  name : Option String := none
  in_reply_to : Option String := none
  id : Option String := none
deriving DecidableEq, Repr

/-- An inbound activity document as read by `by_ap`: `id`, `actor`, wire
`type`, embedded `object` and optional `published` timestamp. -/
structure ApData where
  id : String
  actor : String
  type : String
  object : ApObject
  published : Option Int := none
deriving DecidableEq, Repr

/-- The exception classes `by_ap` can raise: the not-found class
`PlaylistInteraction.DoesNotExist`, the not-found class
`Playlist.DoesNotExist`, `ValueError`, and `KeyError` for a vote object
without a `name`. -/
inductive ApError where
| doesNotExist (msg : String)
| playlistDoesNotExist
| valueError (msg : String)
| keyError (msg : String)
deriving DecidableEq, Repr

/-- Modelled from the spec: `core.ld.get_str_or_id` (not part of this
repository) reads a URI from a string-or-object field; `by_ap` resolves the
target playlist URI as `inReplyTo` of the object when present, else the
object own URI. -/
def get_str_or_id_target (o : ApObject) : String :=
  match o.in_reply_to with
  | some t => t
  | none => o.id.getD ""

/-- Modelled from the spec: `Identity.by_actor_uri(uri, create=True)` (the
identity directory lives outside this repository) resolves an identity by
actor URI, lazily creating a remote identity on first reference. -/
def by_actor_uri (identities : List Identity) (freshId : Nat) (uri : String) : Identity :=
  match identities.find? (fun i => i.actor_uri == uri) with
  | some i => i
  | none =>
      { id := freshId, isLocal := false, shared_inbox_uri := none, actor_uri := uri }

/-- Embeds `isinstance(playlist.type_data, QuestionData)`. -/
def isQuestionData : Option PlaylistDataType → Bool
  | some (PlaylistDataType.question _) => true
  | _ => false

/-- The type/value classification step of `by_ap` once the playlist is
resolved: `Like` maps to `like`, `Announce` to `boost`, a `Create` of a
`Note` on a question playlist to `vote` with the validation the source
applies there (the vote value is read before the checks, an expired
question or a single-choice duplicate raises the not-found class), and
anything else raises `ValueError`. -/
def classify_ap (now : Int) (db : List PlaylistInteraction) (data : ApData)
    (identity : Identity) (playlist : Playlist) :
    Except ApError (InteractionType × Option String) :=
  if lowerStr data.type == "like" then
    Except.ok (InteractionType.like, none)
  else if lowerStr data.type == "announce" then
    Except.ok (InteractionType.boost, none)
  else if lowerStr data.type == "create" && lowerStr data.object.type == "note"
      && isQuestionData playlist.type_data then
    match playlist.type_data with
    | some (PlaylistDataType.question question) =>
        match data.object.name with
        | none => Except.error (ApError.keyError "name")
        | some value =>
            if pollEnded question now then
              Except.error (ApError.doesNotExist
                ("Cannot create a vote to the expired question "
                  ++ toString playlist.id))
            else if question.mode == some "oneOf"
                && !(votesBy db playlist identity).isEmpty then
              Except.error (ApError.doesNotExist
                ("The identity " ++ identity.handle ++ " already voted in question "
                  ++ toString playlist.id))
            else
              Except.ok (InteractionType.vote, some value)
    | _ => Except.error (ApError.valueError ("Cannot handle AP type " ++ data.type))
  else
    Except.error (ApError.valueError ("Cannot handle AP type " ++ data.type))

/-- Embeds `PlaylistInteraction.by_ap`: retrieves the interaction with the
document id, or (with `create`) resolves actor and playlist (the playlist
directory, modelled from the spec, raises the playlist not-found class for
an unknown URI), classifies the activity and creates the row.  Returns the
interaction and the resulting interaction table. -/
def by_ap (now : Int) (db : List PlaylistInteraction) (playlists : List Playlist)
    (identities : List Identity) (freshId : Nat) (data : ApData) (create : Bool) :
    Except ApError (PlaylistInteraction × List PlaylistInteraction) :=
  match db.find? (fun b => b.object_uri == some data.id) with
  | some boost => Except.ok (boost, db)
  | none =>
      if create then
        let identity := by_actor_uri identities freshId data.actor
        let target := get_str_or_id_target data.object
        match playlists.find? (fun p => p.object_uri == target) with
        | none => Except.error ApError.playlistDoesNotExist
        | some playlist =>
            match classify_ap now db data identity playlist with
            | Except.error e => Except.error e
            | Except.ok (ty, value) =>
                let row : PlaylistInteraction :=
                  { id := freshId + 1
                    object_uri := some data.id
                    type := ty
                    identity := identity
                    playlist := playlist
                    value := value
                    published := data.published.getD now }
                Except.ok (row, db ++ [row])
      else
        Except.error (ApError.doesNotExist ("No interaction with ID " ++ data.id))

/-- Embeds `PlaylistInteraction.handle_ap`: calls `by_ap` with `create=True` and
catches the two not-found classes, returning silently with the table
unchanged; other exception classes propagate.  Returns the handled
interaction (if any) and the resulting interaction table. -/
def handle_ap (now : Int) (db : List PlaylistInteraction) (playlists : List Playlist)
    (identities : List Identity) (freshId : Nat) (data : ApData) :
    Except ApError (Option PlaylistInteraction × List PlaylistInteraction) :=
  match by_ap now db playlists identities freshId data true with
  | Except.ok (interaction, db2) => Except.ok (some interaction, db2)
  | Except.error (ApError.doesNotExist _) => Except.ok (none, db)
  | Except.error ApError.playlistDoesNotExist => Except.ok (none, db)
  | Except.error e => Except.error e

/-- The remote voter of the C6 instance. -/
def c6voter : Identity :=
  { id := 19, isLocal := false, shared_inbox_uri := none,
    actor_uri := "https://there.example/u/c6", handle := "c6@there.example" }

/-- The question playlist of the C6 instance: a single-choice poll that
ended at time 100. -/
def c6playlist : Playlist :=
  { id := 93
    author := { id := 21, isLocal := true, shared_inbox_uri := none,
                actor_uri := "https://here.example/u/c6auth" }
    isLocal := true
    object_uri := "https://here.example/p/93"
    type_data := some (PlaylistDataType.question
      { mode := some "oneOf"
        options := [{ name := "A", votes := 0 }, { name := "B", votes := 0 }]
        voter_count := 0
        end_time := some 100 }) }

/-- The inbound vote document of the C6 instance. -/
def c6data : ApData :=
  { id := "https://there.example/act/1"
    actor := "https://there.example/u/c6"
    type := "Create"
    object := { type := "Note", name := some "A",
                in_reply_to := some "https://here.example/p/93" } }

/-- A JSON-like value inside an activity document. -/
inductive APValue where
| str (s : String)
| arr (xs : List APValue)
| obj (fields : List (String × APValue))
| bool (b : Bool)
| null

/-- Dictionary lookup in an activity document. -/
def getField (doc : List (String × APValue)) (k : String) : Option APValue :=
  (doc.find? (fun kv => kv.1 == k)).map Prod.snd

/-- Python falsiness of a list value: only the empty array is deleted by
the removal loop. -/
def isEmptyArr : APValue → Bool
  | APValue.arr [] => true
  | _ => false

/-- The removal loop at the end of `Playlist.to_ap`: the fields `to`,
`cc`, `tag` and `attachment` are deleted from the document when they hold
an empty list. -/
def removeEmptyFields (doc : List (String × APValue)) : List (String × APValue) :=
  doc.filter (fun kv =>
    !((kv.1 == "to" || kv.1 == "cc" || kv.1 == "tag" || kv.1 == "attachment")
      && isEmptyArr kv.2))

/-- Embeds `mention.to_ap_tag()`: the mention serializer lives in the users app
outside this repository; modelled from the spec as a Mention tag object on
the actor URI. -/
def mention_ap_tag (m : Identity) : APValue :=
  APValue.obj [("type", APValue.str "Mention"), ("href", APValue.str m.actor_uri)]

/-- The hashtag tag dictionary built inline by `Playlist.to_ap`. -/
def hashtag_ap_tag (p : Playlist) (h : String) : APValue :=
  APValue.obj
    [("href", APValue.str ("https://" ++ p.author.uri_domain ++ "/tags/" ++ h ++ "/")),
     ("name", APValue.str ("#" ++ h)),
     ("type", APValue.str "Hashtag")]

/-- Embeds `emoji.to_ap_tag()`: external serializer, modelled as an opaque tag
object holding the stored payload. -/
def emoji_ap_tag (e : String) : APValue :=
  APValue.obj [("emoji", APValue.str e)]

/-- Embeds `attachment.to_ap()`: external serializer, modelled as an opaque
object holding the stored payload. -/
def attachment_ap (a : String) : APValue :=
  APValue.obj [("attachment", APValue.str a)]

/-- The document built by `Playlist.to_ap` before its removal loop: the
audience fields filled from the visibility, the mention/hashtag/emoji tags
and the attachments collected, the optional fields appended. -/
def Playlist.to_ap_raw (p : Playlist) : List (String × APValue) :=
  let toL : List APValue :=
    (if p.visibility = Visibility.publicVis then [APValue.str "as:Public"] else [])
    ++ (match p.visibility, p.author.followers_uri with
        | Visibility.followers, some u => [APValue.str u]
        | _, _ => [])
  let ccL : List APValue :=
    (if p.visibility = Visibility.unlisted then [APValue.str "as:Public"] else [])
    ++ p.mentions.map (fun m => APValue.str m.actor_uri)
  let tagL : List APValue :=
    p.mentions.map mention_ap_tag ++ p.hashtags.map (hashtag_ap_tag p)
    ++ p.emojis.map emoji_ap_tag
  let attL : List APValue := p.attachments.map attachment_ap
  ([("to", APValue.arr toL), ("cc", APValue.arr ccL),
      ("type", APValue.str p.ap_type), ("id", APValue.str p.object_uri),
      ("name", APValue.str p.name),
      ("published", APValue.str (format_ld_date p.published)),
      ("attributedTo", APValue.str p.author.actor_uri),
      ("content", APValue.str p.content),
      ("sensitive", APValue.bool p.sensitive),
      ("url", APValue.str p.url),
      ("tag", APValue.arr tagL), ("attachment", APValue.arr attL)]
      ++ (match p.description with
          | some d => [("description", APValue.str d)]
          | none => [])
      ++ (match p.in_reply_to with
          | some r => [("inReplyTo", APValue.str r)]
          | none => [])
      ++ (match p.edited with
          | some e => [("updated", APValue.str (format_ld_date e))]
          | none => []))

/-- Embeds `Playlist.to_ap`: the AP document of a playlist, the empty
`to`/`cc`/`tag`/`attachment` fields removed at the end. -/
def Playlist.to_ap (p : Playlist) : List (String × APValue) :=
  removeEmptyFields p.to_ap_raw

/-- Embeds `Playlist.to_create_ap`: the Create wrapper, reading `to` and `cc` back
from the inner object with an empty-list default. -/
def Playlist.to_create_ap (p : Playlist) : List (String × APValue) :=
  let object := p.to_ap
  [("to", (getField object "to").getD (APValue.arr [])),
   ("cc", (getField object "cc").getD (APValue.arr [])),
   ("type", APValue.str "Create"),
   ("id", APValue.str (p.object_uri ++ "#create")),
   ("actor", APValue.str p.author.actor_uri),
   ("object", APValue.obj object)]

/-- Embeds `Playlist.to_update_ap`: the Update wrapper, shaped like the Create
wrapper. -/
def Playlist.to_update_ap (p : Playlist) : List (String × APValue) :=
  let object := p.to_ap
  [("to", (getField object "to").getD (APValue.arr [])),
   ("cc", (getField object "cc").getD (APValue.arr [])),
   ("type", APValue.str "Update"),
   ("id", APValue.str (p.object_uri ++ "#update")),
   ("actor", APValue.str p.author.actor_uri),
   ("object", APValue.obj object)]

/-- The string value of an interaction type, as used in derived URIs. -/
def interactionTypeStr : InteractionType → String
  | InteractionType.like => "like"
  | InteractionType.boost => "boost"
  | InteractionType.vote => "vote"
  | InteractionType.pin => "pin"

/-- The object URI `to_ap` guarantees: the stored one, or the derived
`{actor}#{type}/{id}` URI assigned when it is missing. -/
def PlaylistInteraction.apObjectUri (i : PlaylistInteraction) : String :=
  match i.object_uri with
  | some u => u
  | none =>
      i.identity.actor_uri ++ "#" ++ interactionTypeStr i.type ++ "/" ++ toString i.id

/-- Embeds `PlaylistInteraction.to_ap`: the Announce/Like/Note document of an
interaction; a pin raises `ValueError`. -/
def PlaylistInteraction.to_ap (i : PlaylistInteraction) :
    Except String (List (String × APValue)) :=
  match i.type with
  | InteractionType.boost =>
      Except.ok
        [("type", APValue.str "Announce"),
         ("id", APValue.str i.apObjectUri),
         ("published", APValue.str (format_ld_date i.published)),
         ("actor", APValue.str i.identity.actor_uri),
         ("object", APValue.str i.playlist.object_uri),
         ("to", APValue.str "as:Public")]
  | InteractionType.like =>
      Except.ok
        [("type", APValue.str "Like"),
         ("id", APValue.str i.apObjectUri),
         ("published", APValue.str (format_ld_date i.published)),
         ("actor", APValue.str i.identity.actor_uri),
         ("object", APValue.str i.playlist.object_uri)]
  | InteractionType.vote =>
      Except.ok
        [("type", APValue.str "Note"),
         ("id", APValue.str i.apObjectUri),
         ("to", APValue.str i.playlist.author.actor_uri),
         ("name", match i.value with
           | some v => APValue.str v
           | none => APValue.null),
         ("inReplyTo", APValue.str i.playlist.object_uri),
         ("attributedTo", APValue.str i.identity.actor_uri)]
  | InteractionType.pin => Except.error "Cannot turn into AP"

/-- Embeds `PlaylistInteraction.to_create_ap`: the Create wrapper over `to_ap`,
reading `to` and `cc` back from the inner object with an empty-list
default; its `id` is the object URI `to_ap` assigned. -/
def PlaylistInteraction.to_create_ap (i : PlaylistInteraction) :
    Except String (List (String × APValue)) := do
  let object ← i.to_ap
  Except.ok
    [("to", (getField object "to").getD (APValue.arr [])),
     ("cc", (getField object "cc").getD (APValue.arr [])),
     ("type", APValue.str "Create"),
     ("id", APValue.str i.apObjectUri),
     ("actor", APValue.str i.identity.actor_uri),
     ("object", APValue.obj object)]

/-- Embeds `PlaylistInteraction.to_undo_ap`: the Undo wrapper over `to_ap`; it
carries no audience fields at all. -/
def PlaylistInteraction.to_undo_ap (i : PlaylistInteraction) :
    Except String (List (String × APValue)) := do
  let object ← i.to_ap
  let objectId :=
    match getField object "id" with
    | some (APValue.str s) => s
    | _ => ""
  Except.ok
    [("id", APValue.str (objectId ++ "/undo")),
     ("type", APValue.str "Undo"),
     ("actor", APValue.str i.identity.actor_uri),
     ("object", APValue.obj object)]

/-- The concrete playlist of the C7 instance: mentioned-only visibility, so
its `to_ap` document omits `to` and `cc` entirely. -/
def c7playlist : Playlist :=
  { id := 94
    author := { id := 22, isLocal := true, shared_inbox_uri := none,
                actor_uri := "https://here.example/u/c7auth" }
    isLocal := true
    object_uri := "https://here.example/p/94"
    visibility := Visibility.mentioned }

/-- The concrete like interaction of the C7 counterexample; the `to_ap`
document of a like carries no audience fields. -/
def c7like : PlaylistInteraction :=
  { id := 70
    object_uri := some "https://here.example/u/c7#like/70"
    type := InteractionType.like
    identity := { id := 23, isLocal := true, shared_inbox_uri := none,
                  actor_uri := "https://here.example/u/c7" }
    playlist := c7playlist }

/-- Embeds `PlaylistService.interact_as`: get-or-create the interaction row for
(type, identity, playlist) and reset it to the initial state when it is not
active. -/
def interact_as (db : List PlaylistInteraction) (playlist : Playlist)
    (identity : Identity) (ty : InteractionType) (freshId : Nat) (now : Int) :
    List PlaylistInteraction :=
  match db.find? (fun x => x.type == ty && x.identity.id == identity.id
      && x.playlist.id == playlist.id) with
  | some interaction =>
      if interaction.state ∈ group_active then db
      else
        db.map (fun x =>
          if x.id == interaction.id then { x with state := InteractionState.new } else x)
  | none =>
      db ++ [{ id := freshId
               state := InteractionState.new
               type := ty
               identity := identity
               playlist := playlist
               published := now }]

/-- Embeds `PlaylistService.pin_as`: author check, visibility check, then the
ceiling of five over all pin rows of the identity — the count filters only
on type and identity, so it spans every playlist and every lifecycle
state; on success defers to `interact_as`. -/
def pin_as (db : List PlaylistInteraction) (playlist : Playlist) (identity : Identity)
    (freshId : Nat) (now : Int) : Except String (List PlaylistInteraction) :=
  if !(identity.id == playlist.author.id) then
    Except.error "Not the author of this playlist"
  else if playlist.visibility == Visibility.mentioned then
    Except.error "Cannot pin a mentioned-only playlist"
  else if 5 ≤ (db.filter (fun x => x.type == InteractionType.pin
      && x.identity.id == identity.id)).length then
    Except.error "Maximum number of pins already reached"
  else
    Except.ok (interact_as db playlist identity InteractionType.pin freshId now)

/-- The interaction table a service call leaves behind: the new table on
success, the unchanged table when the call raised. -/
def serviceResult (db : List PlaylistInteraction)
    (r : Except String (List PlaylistInteraction)) : List PlaylistInteraction :=
  match r with
  | Except.ok db2 => db2
  | Except.error _ => db

/-- The pinning author of the C8 instance. -/
def c8author : Identity :=
  { id := 24, isLocal := true, shared_inbox_uri := none,
    actor_uri := "https://here.example/u/c8" }

/-- A different identity, not the author. -/
def c8other : Identity :=
  { id := 25, isLocal := true, shared_inbox_uri := none,
    actor_uri := "https://here.example/u/c8other" }

/-- The playlist the C8 instance tries to pin. -/
def c8playlist : Playlist :=
  { id := 95
    author := c8author
    isLocal := true
    object_uri := "https://here.example/p/95" }

/-- A pin row for the C8 table. -/
def c8pin (n : Nat) (st : InteractionState) : PlaylistInteraction :=
  { id := 800 + n
    state := st
    type := InteractionType.pin
    identity := c8author
    playlist := { id := 900 + n
                  author := c8author
                  isLocal := true
                  object_uri := "https://here.example/p/c8" } }

/-- Five pin rows of `c8author`, spread over distinct playlists and over
every lifecycle state including the inactive ones. -/
def c8db : List PlaylistInteraction :=
  [c8pin 1 InteractionState.new,
   c8pin 2 InteractionState.fanned_out,
   c8pin 3 InteractionState.undone,
   c8pin 4 InteractionState.undone_fanned_out,
   c8pin 5 InteractionState.undone]

/-- The deduplication loop only ever appends to the `deduped` list. -/
theorem mem_deduped_dedupStep (a : Bool) (s : DedupState) (t : Identity) (x : Identity)
    (hx : x ∈ s.deduped) : x ∈ (dedupStep a s t).deduped := by
  unfold dedupStep
  by_cases h1 : t.isLocal = true
  · simp [h1, hx]
  · by_cases h2 : a = true
    · cases hu : t.shared_inbox_uri with
      | none => simp [h1, h2, hu, hx]
      | some u =>
          by_cases h3 : u ∈ s.inboxes <;> simp [h1, h2, hu, h3, hx]
    · simp [h1, h2, hx]

/-- The deduplication loop only ever grows the set of seen shared
inboxes. -/
theorem mem_inboxes_dedupStep (a : Bool) (s : DedupState) (t : Identity) (u : String)
    (hu : u ∈ s.inboxes) : u ∈ (dedupStep a s t).inboxes := by
  unfold dedupStep
  by_cases h1 : t.isLocal = true
  · simp [h1, hu]
  · by_cases h2 : a = true
    · cases hs : t.shared_inbox_uri with
      | none => simp [h1, h2, hs, hu]
      | some v =>
          by_cases h3 : v ∈ s.inboxes <;> simp [h1, h2, hs, h3, hu]
    · simp [h1, h2, hu]

/-- Folding the deduplication loop preserves membership in `deduped`. -/
theorem mem_deduped_foldl (a : Bool) (l : List Identity) (s : DedupState) (x : Identity)
    (hx : x ∈ s.deduped) : x ∈ (l.foldl (dedupStep a) s).deduped := by
  induction l generalizing s with
  | nil => exact hx
  | cons hd tl ih => exact ih _ (mem_deduped_dedupStep a s hd x hx)

/-- One step of the deduplication loop preserves the invariant. -/
theorem inboxInv_dedupStep (a : Bool) (s : DedupState) (t : Identity)
    (h : InboxInv s) : InboxInv (dedupStep a s t) := by
  obtain ⟨h1, h2⟩ := h
  unfold dedupStep
  by_cases hl : t.isLocal = true
  · rw [if_pos hl]
    refine ⟨?_, ?_⟩
    · intro x hx hxl u hxu
      rcases List.mem_append.mp hx with hx | hx
      · exact h1 x hx hxl u hxu
      · rw [List.mem_singleton.mp hx] at hxl
        rw [hl] at hxl
        cases hxl
    · intro x hx y hy hxl hyl u hxu hyu
      rcases List.mem_append.mp hx with hx | hx
      · rcases List.mem_append.mp hy with hy | hy
        · exact h2 x hx y hy hxl hyl u hxu hyu
        · rw [List.mem_singleton.mp hy] at hyl
          rw [hl] at hyl
          cases hyl
      · rw [List.mem_singleton.mp hx] at hxl
        rw [hl] at hxl
        cases hxl
  · rw [if_neg hl]
    by_cases ha : a = true
    · rw [if_pos ha]
      cases hs : t.shared_inbox_uri with
      | none =>
          refine ⟨?_, ?_⟩
          · intro x hx hxl u hxu
            rcases List.mem_append.mp hx with hx | hx
            · exact h1 x hx hxl u hxu
            · rw [List.mem_singleton.mp hx] at hxu
              rw [hs] at hxu
              cases hxu
          · intro x hx y hy hxl hyl u hxu hyu
            rcases List.mem_append.mp hx with hx | hx
            · rcases List.mem_append.mp hy with hy | hy
              · exact h2 x hx y hy hxl hyl u hxu hyu
              · rw [List.mem_singleton.mp hy] at hyu
                rw [hs] at hyu
                cases hyu
            · rw [List.mem_singleton.mp hx] at hxu
              rw [hs] at hxu
              cases hxu
      | some v =>
          show InboxInv (if v ∈ s.inboxes then s
            else { deduped := s.deduped ++ [t], inboxes := v :: s.inboxes })
          by_cases hv : v ∈ s.inboxes
          · rw [if_pos hv]
            exact ⟨h1, h2⟩
          · rw [if_neg hv]
            refine ⟨?_, ?_⟩
            · intro x hx hxl u hxu
              rcases List.mem_append.mp hx with hx | hx
              · exact List.mem_cons_of_mem v (h1 x hx hxl u hxu)
              · rw [List.mem_singleton.mp hx] at hxu
                rw [hs] at hxu
                cases hxu
                exact List.mem_cons_self v s.inboxes
            · intro x hx y hy hxl hyl u hxu hyu
              rcases List.mem_append.mp hx with hx | hx
              · rcases List.mem_append.mp hy with hy | hy
                · exact h2 x hx y hy hxl hyl u hxu hyu
                · rw [List.mem_singleton.mp hy] at hyu ⊢
                  rw [hs] at hyu
                  cases hyu
                  exact absurd (h1 x hx hxl v hxu) hv
              · rw [List.mem_singleton.mp hx] at hxu ⊢
                rw [hs] at hxu
                cases hxu
                rcases List.mem_append.mp hy with hy | hy
                · exact absurd (h1 y hy hyl v hyu) hv
                · rw [List.mem_singleton.mp hy]
    · rw [if_neg ha]
      exact ⟨h1, h2⟩

/-- The whole deduplication fold preserves the invariant. -/
theorem inboxInv_foldl (a : Bool) (l : List Identity) (s : DedupState)
    (h : InboxInv s) : InboxInv (l.foldl (dedupStep a) s) := by
  induction l generalizing s with
  | nil => exact h
  | cons hd tl ih => exact ih _ (inboxInv_dedupStep a s hd h)

/-- A local candidate is always kept by the deduplication fold. -/
theorem local_mem_foldl (a : Bool) (l : List Identity) (s : DedupState) (c : Identity)
    (hc : c ∈ l) (hl : c.isLocal = true) : c ∈ (l.foldl (dedupStep a) s).deduped := by
  induction l generalizing s with
  | nil => cases hc
  | cons hd tl ih =>
      rcases List.mem_cons.mp hc with hc | hc
      · subst hc
        refine mem_deduped_foldl a tl _ c ?_
        unfold dedupStep
        simp [hl]
      · exact ih _ hc

/-- When the acting identity is local, a remote candidate without a shared
inbox is always kept by the deduplication fold. -/
theorem remote_noinbox_mem_foldl (l : List Identity) (s : DedupState) (c : Identity)
    (hc : c ∈ l) (hl : c.isLocal = false) (hi : c.shared_inbox_uri = none) :
    c ∈ (l.foldl (dedupStep true) s).deduped := by
  induction l generalizing s with
  | nil => cases hc
  | cons hd tl ih =>
      rcases List.mem_cons.mp hc with hc | hc
      · subst hc
        refine mem_deduped_foldl true tl _ c ?_
        unfold dedupStep
        simp [hl, hi]
      · exact ih _ hc

/-- C2: when the acting identity is local, `get_targets` keeps at most one
remote target per non-null shared inbox, while every local candidate and
every remote candidate without a shared inbox is kept individually. -/
theorem get_targets_shared_inbox_dedup (i : PlaylistInteraction) (follows : List Follow)
    (blocks : List Block) (hloc : i.identity.isLocal = true) :
    (∀ t1 ∈ get_targets i follows blocks, ∀ t2 ∈ get_targets i follows blocks,
      t1.isLocal = false → t2.isLocal = false →
      ∀ u, t1.shared_inbox_uri = some u → t2.shared_inbox_uri = some u → t1 = t2)
    ∧ (∀ c ∈ candidates i follows blocks, c.isLocal = true →
        c ∈ get_targets i follows blocks)
    ∧ (∀ c ∈ candidates i follows blocks, c.isLocal = false →
        c.shared_inbox_uri = none → c ∈ get_targets i follows blocks) := by
  refine ⟨?_, ?_, ?_⟩
  · have h := inboxInv_foldl i.identity.isLocal (candidates i follows blocks) ⟨[], []⟩
      ⟨fun t ht => absurd ht (List.not_mem_nil t),
       fun t ht => absurd ht (List.not_mem_nil t)⟩
    intro t1 h1 t2 h2
    exact h.2 t1 h1 t2 h2
  · intro c hc hcl
    exact local_mem_foldl i.identity.isLocal (candidates i follows blocks) ⟨[], []⟩ c hc hcl
  · intro c hc hcl hci
    unfold get_targets
    rw [hloc]
    exact remote_noinbox_mem_foldl (candidates i follows blocks) ⟨[], []⟩ c hc hcl hci

/-- Closed instance of the C2 theorem: the shared-inbox-free remote
candidate `c2remote3` is kept, and of the two candidates sharing an inbox
only one survives. -/
theorem get_targets_shared_inbox_dedup_witness :
    c2remote3 ∈ candidates c2like c2follows [] ∧ c2remote3.isLocal = false
    ∧ c2remote3.shared_inbox_uri = none
    ∧ c2remote3 ∈ get_targets c2like c2follows []
    ∧ ¬(c2remote1 ∈ get_targets c2like c2follows []
        ∧ c2remote2 ∈ get_targets c2like c2follows []) :=
  ⟨by decide, rfl, rfl,
    (get_targets_shared_inbox_dedup c2like c2follows [] rfl).2.2 c2remote3 (by decide)
      rfl rfl,
    fun hb =>
      absurd
        ((get_targets_shared_inbox_dedup c2like c2follows [] rfl).1 c2remote1 hb.1
          c2remote2 hb.2 rfl rfl "https://there.example/inbox" rfl rfl)
        (by decide)⟩

/-- C1: for a like, `handle_new` creates exactly one `FanOut` row targeting
the playlist author when the acting identity or the playlist is local, zero
rows when both are remote, and never more than one row. -/
theorem like_fanout_author_only (i : PlaylistInteraction) (follows : List Follow)
    (blocks : List Block) (ht : i.type = InteractionType.like) :
    ∃ rows, handle_new i follows blocks = Except.ok (rows, InteractionState.fanned_out)
      ∧ ((i.identity.isLocal = true ∨ i.playlist.isLocal = true) →
          rows = [mkFanOut FanOutType.interaction i.playlist.author.id i])
      ∧ (i.identity.isLocal = false → i.playlist.isLocal = false → rows = [])
      ∧ rows.length ≤ 1 := by
  refine ⟨if i.identity.isLocal || i.playlist.isLocal then
      [mkFanOut FanOutType.interaction i.playlist.author.id i] else [], ?_, ?_, ?_, ?_⟩
  · simp [handle_new, ht, Bind.bind, Except.bind]
  · intro h
    have : (i.identity.isLocal || i.playlist.isLocal) = true := by
      rcases h with h | h <;> simp [h]
    simp [this]
  · intro h1 h2
    simp [h1, h2]
  · by_cases h : (i.identity.isLocal || i.playlist.isLocal) = true <;> simp [h]

/-- Closed instance of the C1 theorem at `c1like`. -/
theorem like_fanout_author_only_witness :
    c1like.type = InteractionType.like ∧
    ∃ rows,
      handle_new c1like [] [] = Except.ok (rows, InteractionState.fanned_out)
      ∧ ((c1like.identity.isLocal = true ∨ c1like.playlist.isLocal = true) →
          rows = [mkFanOut FanOutType.interaction c1like.playlist.author.id c1like])
      ∧ (c1like.identity.isLocal = false → c1like.playlist.isLocal = false → rows = [])
      ∧ rows.length ≤ 1 :=
  ⟨rfl, like_fanout_author_only c1like [] [] rfl⟩

/-- C3 counterexample: `get_targets` of a local boost does not contain the
acting identity when the actor is not the playlist author and has no
self-follow; only `handle_new` adds the self `FanOut`. -/
theorem boost_self_target_counterexample :
    c3boost.type = InteractionType.boost ∧ c3boost.identity.isLocal = true ∧
    c3boost.identity ∉ get_targets c3boost [] [] := by
  refine ⟨rfl, rfl, ?_⟩
  decide

/-- C3 amended: for a boost by a local identity, the `FanOut` rows created
by `handle_new` target the acting identity at least once (the self
delivery row), and exactly once whenever the actor is not itself among the
resolved targets. -/
theorem boost_self_fanout (i : PlaylistInteraction) (follows : List Follow)
    (blocks : List Block) (ht : i.type = InteractionType.boost)
    (hl : i.identity.isLocal = true) :
    ∀ rows st, handle_new i follows blocks = Except.ok (rows, st) →
      1 ≤ rows.countP (fun f => f.identity_id == i.identity.id)
      ∧ (i.identity.id ∉ (get_targets i follows blocks).map Identity.id →
          rows.countP (fun f => f.identity_id == i.identity.id) = 1) := by
  intro rows st h
  have hrows : rows = (get_targets i follows blocks).map
      (fun t => mkFanOut FanOutType.interaction t.id i)
      ++ [mkFanOut FanOutType.interaction i.identity.id i] := by
    simp [handle_new, ht, hl, Bind.bind, Except.bind] at h
    exact h.1.symm
  subst hrows
  rw [List.countP_append]
  have hself : List.countP (fun f => f.identity_id == i.identity.id)
      [mkFanOut FanOutType.interaction i.identity.id i] = 1 := by
    simp [mkFanOut, List.countP_cons]
  constructor
  · omega
  · intro hni
    have hzero : List.countP (fun f => f.identity_id == i.identity.id)
        ((get_targets i follows blocks).map
          (fun t => mkFanOut FanOutType.interaction t.id i)) = 0 := by
      rw [List.countP_eq_zero]
      intro f hf
      rcases List.mem_map.mp hf with ⟨t, htmem, hft⟩
      subst hft
      simp only [mkFanOut, beq_iff_eq]
      intro hcontra
      exact hni (List.mem_map.mpr ⟨t, htmem, hcontra⟩)
    omega

/-- Closed instance of the C3 amended theorem at `c3boost`: the self row is
the single row targeting the actor. -/
theorem boost_self_fanout_witness :
    1 ≤ ([mkFanOut FanOutType.interaction 12 c3boost,
          mkFanOut FanOutType.interaction 11 c3boost].countP
            (fun f => f.identity_id == c3boost.identity.id))
    ∧ ([mkFanOut FanOutType.interaction 12 c3boost,
          mkFanOut FanOutType.interaction 11 c3boost].countP
            (fun f => f.identity_id == c3boost.identity.id)) = 1 :=
  ⟨(boost_self_fanout c3boost [] [] rfl rfl _ InteractionState.fanned_out rfl).1,
   (boost_self_fanout c3boost [] [] rfl rfl _ InteractionState.fanned_out
      rfl).2 (by decide)⟩

/-- C4: a vote interaction entering the undone state is not handled by
`handle_undone`; the handler falls through every branch and raises
`ValueError` with the unknown-type message, creating no `FanOut` rows. -/
theorem vote_undo_raises (i : PlaylistInteraction) (follows : List Follow)
    (ht : i.type = InteractionType.vote) :
    handle_undone i follows = Except.error "Cannot fan out unknown type" := by
  simp [handle_undone, ht, Bind.bind, Except.bind]

/-- Closed instance of the C4 theorem at `c4vote`. -/
theorem vote_undo_raises_witness :
    handle_undone c4vote [] = Except.error "Cannot fan out unknown type" :=
  vote_undo_raises c4vote [] rfl

/-- C5: `create_votes` rejects a duplicate vote with the duplicate-vote
message (when the poll has not ended, the expiry check running first) and
rejects a vote on an ended poll with the poll-expired message; in both
cases it returns the error without creating any row. -/
theorem create_votes_validation (now : Int) (db : List PlaylistInteraction)
    (playlist : Playlist) (identity : Identity) (choices : List Nat) (baseId : Nat)
    (q : QuestionData) (hq : playlist.type_data = some (PlaylistDataType.question q)) :
    ((votesBy db playlist identity).isEmpty = false → pollEnded q now = false →
      create_votes now db playlist identity choices baseId =
        Except.error "Validation failed: You have already voted on this poll")
    ∧ (pollEnded q now = true →
      create_votes now db playlist identity choices baseId =
        Except.error "Validation failed: The poll has already ended") := by
  constructor
  · intro hdup hend
    simp [create_votes, hq, hend, hdup]
  · intro hend
    simp [create_votes, hq, hend]

/-- Closed instance of the C5 theorem: the second vote of `c5voter` is
rejected as a duplicate while the poll is live, and any vote after the end
time is rejected as expired. -/
theorem create_votes_validation_witness :
    create_votes 10 [c5priorVote] c5playlist c5voter [1] 52 =
      Except.error "Validation failed: You have already voted on this poll"
    ∧ create_votes 101 [] c5playlist c5voter [1] 52 =
      Except.error "Validation failed: The poll has already ended" :=
  ⟨(create_votes_validation 10 [c5priorVote] c5playlist c5voter [1] 52 _ rfl).1
      (by decide) (by decide),
   (create_votes_validation 101 [] c5playlist c5voter [1] 52 _ rfl).2 (by decide)⟩

/-- C9: at the instant `now = end_time` the two expiry boundaries disagree:
`create_votes` still accepts the vote (it uses strict greater-than) while
the poll summary already reports `expired = true` (it uses
greater-than-or-equal). -/
theorem expiry_boundary_disagreement (now e : Int) (db : List PlaylistInteraction)
    (playlist : Playlist) (identity : Identity) (c baseId : Nat) (q : QuestionData)
    (hq : playlist.type_data = some (PlaylistDataType.question q))
    (he : q.end_time = some e) (hnow : now = e)
    (hnv : (votesBy db playlist identity).isEmpty = true)
    (hc : c < q.options.length) :
    (create_votes now db playlist identity [c] baseId).isOk = true
    ∧ (q.to_mastodon_json now playlist db (some identity)).expired = true := by
  constructor
  · have hend : pollEnded q now = false := by
      simp [pollEnded, he, hnow]
    have hget : q.options[c]? = some q.options[c] := List.getElem?_eq_getElem hc
    simp [create_votes, hq, hend, hnv, dedupNat, List.mapM.loop, hget,
      Bind.bind, Except.bind, Pure.pure, Except.pure, Except.isOk, Except.toBool]
  · simp [QuestionData.to_mastodon_json, he, hnow]

/-- Closed instance of the C9 theorem at `now = end_time = 100`. -/
theorem expiry_boundary_disagreement_witness :
    (create_votes 100 [] c9playlist c9voter [0] 91).isOk = true
    ∧ (c9question.to_mastodon_json 100 c9playlist [] (some c9voter)).expired = true :=
  expiry_boundary_disagreement 100 100 [] c9playlist c9voter 0 91 c9question
    rfl rfl rfl rfl (by decide)

/-- A filtered list is nonempty exactly when some element satisfies the
predicate. -/
theorem filter_isEmpty_false_iff {α : Type} (l : List α) (p : α → Bool) :
    (l.filter p).isEmpty = false ↔ ∃ x ∈ l, p x = true := by
  constructor
  · intro h
    by_contra hne
    push_neg at hne
    have hnil : l.filter p = [] := List.filter_eq_nil_iff.mpr hne
    rw [hnil] at h
    cases h
  · rintro ⟨x, hx, hpx⟩
    have hmem : x ∈ l.filter p := List.mem_filter.mpr ⟨hx, hpx⟩
    have hne : l.filter p ≠ [] := List.ne_nil_of_mem hmem
    cases hh : (l.filter p).isEmpty
    · rfl
    · exact absurd (List.isEmpty_iff.mp hh) hne

/-- C10: the poll summary reports `voted = true` for the playlist author
even with zero cast votes, while for any other identity `voted` is true
exactly when that identity has at least one vote row on the playlist. -/
theorem poll_voted_author_bias (now : Int) (playlist : Playlist)
    (db : List PlaylistInteraction) (q : QuestionData) (ident : Identity) :
    (playlist.author.id = ident.id →
      (q.to_mastodon_json now playlist db (some ident)).voted = true)
    ∧ (playlist.author.id ≠ ident.id →
      ((q.to_mastodon_json now playlist db (some ident)).voted = true ↔
        ∃ x ∈ db, x.playlist.id = playlist.id ∧ x.identity.id = ident.id
          ∧ x.type = InteractionType.vote)) := by
  constructor
  · intro h
    simp [QuestionData.to_mastodon_json, h]
  · intro h
    have hne : (playlist.author.id == ident.id) = false := by
      simp [h]
    simp only [QuestionData.to_mastodon_json, hne, Bool.false_or]
    rw [Bool.not_eq_true', votesBy, filter_isEmpty_false_iff]
    constructor
    · rintro ⟨x, hx, hpred⟩
      refine ⟨x, hx, ?_⟩
      simpa [and_assoc] using hpred
    · rintro ⟨x, hx, h1, h2, h3⟩
      exact ⟨x, hx, by simp [h1, h2, h3]⟩

/-- Closed instance of the C10 theorem: with an empty vote table the author
still reads `voted = true`, and a non-author reads `voted = false`. -/
theorem poll_voted_author_bias_witness :
    (c10question.to_mastodon_json 0 c10playlist [] (some c10playlist.author)).voted = true
    ∧ (c10question.to_mastodon_json 0 c10playlist [] (some c10other)).voted = false :=
  ⟨(poll_voted_author_bias 0 c10playlist [] c10question c10playlist.author).1 rfl,
   by
    have h := (poll_voted_author_bias 0 c10playlist [] c10question c10other).2
      (by decide)
    rcases hv : (c10question.to_mastodon_json 0 c10playlist [] (some c10other)).voted
    · rfl
    · rcases (h.mp hv) with ⟨x, hx, -⟩
      cases hx⟩

/-- C6: an inbound vote on an expired poll, or a duplicate vote on a
single-choice poll, makes `by_ap` (with `create`) raise the not-found
class `DoesNotExist` (and not any other class), and `handle_ap` catches
that class, as well as a missing playlist, returning silently with no
interaction created. -/
theorem inbound_vote_not_found_errors (now : Int) (db : List PlaylistInteraction)
    (playlists : List Playlist) (identities : List Identity) (freshId : Nat)
    (data : ApData)
    (hnew : db.find? (fun b => b.object_uri == some data.id) = none)
    (htype : lowerStr data.type = "create")
    (hobj : lowerStr data.object.type = "note") :
    (∀ playlist q v,
      playlists.find? (fun p => p.object_uri == get_str_or_id_target data.object)
        = some playlist →
      playlist.type_data = some (PlaylistDataType.question q) →
      data.object.name = some v →
      pollEnded q now = true →
      (∃ m, by_ap now db playlists identities freshId data true =
        Except.error (ApError.doesNotExist m))
      ∧ handle_ap now db playlists identities freshId data = Except.ok (none, db))
    ∧ (∀ playlist q v,
      playlists.find? (fun p => p.object_uri == get_str_or_id_target data.object)
        = some playlist →
      playlist.type_data = some (PlaylistDataType.question q) →
      data.object.name = some v →
      pollEnded q now = false →
      q.mode = some "oneOf" →
      (votesBy db playlist (by_actor_uri identities freshId data.actor)).isEmpty
        = false →
      (∃ m, by_ap now db playlists identities freshId data true =
        Except.error (ApError.doesNotExist m))
      ∧ handle_ap now db playlists identities freshId data = Except.ok (none, db))
    ∧ (playlists.find? (fun p => p.object_uri == get_str_or_id_target data.object)
        = none →
      by_ap now db playlists identities freshId data true =
        Except.error ApError.playlistDoesNotExist
      ∧ handle_ap now db playlists identities freshId data = Except.ok (none, db)) := by
  refine ⟨?_, ?_, ?_⟩
  · intro playlist q v hfind hqd hname hend
    have hcls : classify_ap now db data (by_actor_uri identities freshId data.actor)
        playlist = Except.error (ApError.doesNotExist
          ("Cannot create a vote to the expired question " ++ toString playlist.id)) := by
      simp [classify_ap, htype, hobj, hqd, hname, hend, isQuestionData]
    have hba : by_ap now db playlists identities freshId data true =
        Except.error (ApError.doesNotExist
          ("Cannot create a vote to the expired question " ++ toString playlist.id)) := by
      simp [by_ap, hnew, hfind, hcls]
    exact ⟨⟨_, hba⟩, by simp [handle_ap, hba]⟩
  · intro playlist q v hfind hqd hname hend hmode hdup
    have hcls : classify_ap now db data (by_actor_uri identities freshId data.actor)
        playlist = Except.error (ApError.doesNotExist
          ("The identity " ++ (by_actor_uri identities freshId data.actor).handle
            ++ " already voted in question " ++ toString playlist.id)) := by
      simp [classify_ap, htype, hobj, hqd, hname, hend, hmode, hdup, isQuestionData]
    have hba : by_ap now db playlists identities freshId data true =
        Except.error (ApError.doesNotExist
          ("The identity " ++ (by_actor_uri identities freshId data.actor).handle
            ++ " already voted in question " ++ toString playlist.id)) := by
      simp [by_ap, hnew, hfind, hcls]
    exact ⟨⟨_, hba⟩, by simp [handle_ap, hba]⟩
  · intro hfind
    have hba : by_ap now db playlists identities freshId data true =
        Except.error ApError.playlistDoesNotExist := by
      simp [by_ap, hnew, hfind]
    exact ⟨hba, by simp [handle_ap, hba]⟩

/-- Closed instance of the C6 theorem: the vote arriving at time 101 on the
poll that ended at 100 raises the not-found class and `handle_ap` swallows
it leaving the table unchanged. -/
theorem inbound_vote_not_found_errors_witness :
    (∃ m, by_ap 101 [] [c6playlist] [c6voter] 500 c6data true =
      Except.error (ApError.doesNotExist m))
    ∧ handle_ap 101 [] [c6playlist] [c6voter] 500 c6data = Except.ok (none, []) :=
  (inbound_vote_not_found_errors 101 [] [c6playlist] [c6voter] 500 c6data
      rfl (by decide) (by decide)).1 c6playlist
    { mode := some "oneOf"
      options := [{ name := "A", votes := 0 }, { name := "B", votes := 0 }]
      voter_count := 0
      end_time := some 100 } "A" rfl rfl rfl rfl

/-- A field of a document none of whose values is an empty array never
reads back as an empty array. -/
theorem getField_ne_of_values (doc : List (String × APValue)) (k : String)
    (h : ∀ kv ∈ doc, kv.2 ≠ APValue.arr ([] : List APValue)) :
    getField doc k ≠ some (APValue.arr []) := by
  intro hc
  unfold getField at hc
  rcases Option.map_eq_some'.mp hc with ⟨kv, hfind, hsnd⟩
  exact h kv (List.mem_of_find?_eq_some hfind) hsnd

/-- A `to`/`cc`/`tag`/`attachment` field that survives the removal loop is
not an empty list. -/
theorem getField_removeEmptyFields (doc : List (String × APValue)) (k : String)
    (hk : (k == "to" || k == "cc" || k == "tag" || k == "attachment") = true) :
    getField (removeEmptyFields doc) k ≠ some (APValue.arr []) := by
  intro hc
  unfold getField at hc
  rcases Option.map_eq_some'.mp hc with ⟨kv, hfind, hsnd⟩
  have hpred := List.find?_some hfind
  have hmem := List.mem_of_find?_eq_some hfind
  have hflt := (List.mem_filter.mp hmem).2
  have hk1 : kv.1 = k := eq_of_beq hpred
  rw [hk1, hsnd] at hflt
  simp [hk, isEmptyArr] at hflt

/-- C7 counterexample: the Create wrapper of a like carries an explicit
`to` field holding an empty list (and likewise `cc`), instead of omitting
empty audience fields. -/
theorem create_ap_empty_audience_counterexample :
    (PlaylistInteraction.to_create_ap c7like).map (fun d => getField d "to")
      = Except.ok (some (APValue.arr [])) := rfl

/-- C7 amended: `Playlist.to_ap` and `PlaylistInteraction.to_ap` never
emit an empty `to`/`cc`, and `to_undo_ap` carries no audience fields at
all; but the Create and Update wrappers always carry `to` and `cc`,
defaulting them to an explicit empty list when the inner object omits
them. -/
theorem audience_fields_emission (p : Playlist) (i : PlaylistInteraction) (k : String)
    (hk : k = "to" ∨ k = "cc") :
    getField (Playlist.to_ap p) k ≠ some (APValue.arr [])
    ∧ (∀ d, PlaylistInteraction.to_ap i = Except.ok d →
        getField d k ≠ some (APValue.arr []))
    ∧ (∀ d, PlaylistInteraction.to_undo_ap i = Except.ok d → getField d k = none)
    ∧ getField (Playlist.to_create_ap p) k
        = some ((getField (Playlist.to_ap p) k).getD (APValue.arr []))
    ∧ getField (Playlist.to_update_ap p) k
        = some ((getField (Playlist.to_ap p) k).getD (APValue.arr []))
    ∧ (∀ d, PlaylistInteraction.to_create_ap i = Except.ok d →
        (getField d k).isSome = true) := by
  have hkb : (k == "to" || k == "cc" || k == "tag" || k == "attachment") = true := by
    rcases hk with rfl | rfl <;> rfl
  refine ⟨?_, ?_, ?_, ?_, ?_, ?_⟩
  · exact getField_removeEmptyFields p.to_ap_raw k hkb
  · intro d hd
    apply getField_ne_of_values
    intro kv hkv
    cases hti : i.type <;> simp only [PlaylistInteraction.to_ap, hti] at hd
    case pin => exact Except.noConfusion hd
    case like =>
      injection hd with hdd
      rw [← hdd] at hkv
      simp at hkv
      rcases hkv with h | h | h | h | h <;> rw [h] <;> simp
    case boost =>
      injection hd with hdd
      rw [← hdd] at hkv
      simp at hkv
      rcases hkv with h | h | h | h | h | h <;> rw [h] <;> simp
    case vote =>
      injection hd with hdd
      rw [← hdd] at hkv
      simp at hkv
      rcases hkv with h | h | h | h | h | h
      · rw [h]; simp
      · rw [h]; simp
      · rw [h]; simp
      · rw [h]
        cases i.value <;> simp
      · rw [h]; simp
      · rw [h]; simp
  · intro d hd
    cases hta : PlaylistInteraction.to_ap i with
    | error e =>
        rw [PlaylistInteraction.to_undo_ap, hta] at hd
        simp [Bind.bind, Except.bind] at hd
    | ok obj =>
        rw [PlaylistInteraction.to_undo_ap, hta] at hd
        simp [Bind.bind, Except.bind] at hd
        rw [← hd]
        rcases hk with rfl | rfl <;> simp [getField]
  · rcases hk with rfl | rfl <;> simp [Playlist.to_create_ap, getField]
  · rcases hk with rfl | rfl <;> simp [Playlist.to_update_ap, getField]
  · intro d hd
    cases hta : PlaylistInteraction.to_ap i with
    | error e =>
        rw [PlaylistInteraction.to_create_ap, hta] at hd
        simp [Bind.bind, Except.bind] at hd
    | ok obj =>
        rw [PlaylistInteraction.to_create_ap, hta] at hd
        simp [Bind.bind, Except.bind] at hd
        rw [← hd]
        rcases hk with rfl | rfl <;> simp [getField]

/-- Closed instance of the C7 amended theorem at `c7playlist`: the Create
and Update wrappers read their audience fields back with the empty-list
default. -/
theorem audience_fields_emission_witness :
    getField (Playlist.to_create_ap c7playlist) "to"
      = some ((getField (Playlist.to_ap c7playlist) "to").getD (APValue.arr []))
    ∧ getField (Playlist.to_update_ap c7playlist) "cc"
      = some ((getField (Playlist.to_ap c7playlist) "cc").getD (APValue.arr [])) :=
  ⟨(audience_fields_emission c7playlist c7like "to" (Or.inl rfl)).2.2.2.1,
   (audience_fields_emission c7playlist c7like "cc" (Or.inr rfl)).2.2.2.2.1⟩

/-- C8: `pin_as` raises once the identity holds five or more pin rows
(counted across all playlists and lifecycle states), raises for a
non-author, and an erroring call leaves the interaction table unchanged. -/
theorem pin_as_limits (db : List PlaylistInteraction) (playlist : Playlist)
    (identity : Identity) (freshId : Nat) (now : Int) :
    (5 ≤ (db.filter (fun x => x.type == InteractionType.pin
        && x.identity.id == identity.id)).length →
      ∃ m, pin_as db playlist identity freshId now = Except.error m)
    ∧ (identity.id ≠ playlist.author.id →
      pin_as db playlist identity freshId now =
        Except.error "Not the author of this playlist")
    ∧ (∀ m, pin_as db playlist identity freshId now = Except.error m →
      serviceResult db (pin_as db playlist identity freshId now) = db) := by
  refine ⟨?_, ?_, ?_⟩
  · intro hcount
    by_cases h1 : (identity.id == playlist.author.id) = true
    · by_cases h2 : (playlist.visibility == Visibility.mentioned) = true
      · exact ⟨"Cannot pin a mentioned-only playlist", by simp [pin_as, h1, h2]⟩
      · exact ⟨"Maximum number of pins already reached",
          by simp [pin_as, h1, h2, hcount]⟩
    · exact ⟨"Not the author of this playlist", by simp [pin_as, h1]⟩
  · intro hne
    have h1 : (identity.id == playlist.author.id) = false := by
      simp [hne]
    simp [pin_as, h1]
  · intro m hm
    simp [serviceResult, hm]

/-- Closed instance of the C8 theorem: with five pin rows (several of them
in undone states) the sixth pin raises, and a non-author pin raises the
author error. -/
theorem pin_as_limits_witness :
    5 ≤ (c8db.filter (fun x => x.type == InteractionType.pin
        && x.identity.id == c8author.id)).length
    ∧ (∃ m, pin_as c8db c8playlist c8author 600 0 = Except.error m)
    ∧ pin_as [] c8playlist c8other 601 0 =
        Except.error "Not the author of this playlist" :=
  ⟨by decide,
   (pin_as_limits c8db c8playlist c8author 600 0).1 (by decide),
   (pin_as_limits [] c8playlist c8other 601 0).2.1 (by decide)⟩

end Takahe
